import Mathlib

set_option linter.unusedVariables false

namespace Tmuxtool

/-! Shallow embedding of `src/tmuxtool/tmuxtool.py`.

The external `tmux` binary, the `psutil` OS queries and the small I/O
helpers (`eprint`, `output`, `os.system`, `input`) are external
collaborators of the program; they are modelled by an explicit world state
(`World`) and a trace of external calls (`List Call`).  Python exceptions
are modelled by `Except Err`: `Err.errorReturnCode` stands for
`sh.ErrorReturnCode` (a failing external command) and `Err.valueError`
for `ValueError` (usage errors raised by the program itself).  A program
fragment is a function from the orchestrator state (`SessState`, the
mutable fields of `MultiPaneSession`; free functions ignore it) and the
world to a result, the new state, the new world and the trace of external
calls it made. -/

/-- Python `str.split(sep)` for a one-character separator (auxiliary). -/
def splitCharAux (sep : Char) : List Char → List Char → List String
  | [], acc => [String.mk acc.reverse]
  | c :: rest, acc =>
      if c = sep then String.mk acc.reverse :: splitCharAux sep rest []
      else splitCharAux sep rest (c :: acc)

/-- Python `str.split(sep)` for a one-character separator. -/
def splitChar (sep : Char) (s : String) : List String :=
  splitCharAux sep s.toList []

/-- Python `str.strip()`. -/
def pyStrip (s : String) : String :=
  String.mk (((s.toList.dropWhile Char.isWhitespace).reverse.dropWhile Char.isWhitespace).reverse)

/-- Python `str.startswith(p)`. -/
def pyStartsWith (s p : String) : Bool := p.toList.isPrefixOf s.toList

/-- Python `str.endswith(p)`. -/
def pyEndsWith (s p : String) : Bool := p.toList.isSuffixOf s.toList

/-- Python `pathlib.Path(s).name`: the final path component (socket paths produced
by psutil have no trailing slash, so taking the last `/`-separated field
models `Path(...).name` on them). -/
def pathName (s : String) : String := ((splitChar '/' s).getLast?).getD ""

/-- Digit value of a character, if it is a decimal digit. -/
def digitVal (c : Char) : Option Nat :=
  if c.isDigit then some (c.toNat - 48) else none

/-- Parse a nonempty all-digit character list as a natural number. -/
def natOfChars : List Char → Nat → Option Nat
  | [], acc => some acc
  | c :: rest, acc =>
      match digitVal c with
      | some d => natOfChars rest (acc * 10 + d)
      | none => none

/-- Parse a decimal numeral string (used by the tmux model to read the pane
index of a target such as `sess:@0.0`). -/
def natOfString (s : String) : Option Nat :=
  match s.toList with
  | [] => none
  | l => natOfChars l 0

/-- Drop the first `n` characters of a string (used to read `%N` pane ids). -/
def stringDrop (s : String) (n : Nat) : String := String.mk (s.toList.drop n)

/-- A tmux pane: opaque id, the command it runs, an optional title. -/
structure Pane where
  paneId : Nat
  command : List String
  title : Option String
deriving DecidableEq

/-- A tmux window: opaque id, name, panes. -/
structure Window where
  windowId : Nat
  winName : String
  panes : List Pane
deriving DecidableEq

/-- A tmux session as far as the tool observes it. -/
structure TSession where
  tsName : String
  created : Nat
  attached : Bool
  grouped : Bool
  groupName : String
  windows : List Window
  curWin : Nat
deriving DecidableEq

/-- The state of one tmux server instance (one `-L` name). -/
structure TmuxServer where
  sessions : List TSession
  nextWin : Nat
  nextPane : Nat
deriving DecidableEq

/-- The world visible to the program: the running tmux servers (by `-L`
name), whether `select-layout` succeeds for a given layout and pane count
(certain combinations fail in real tmux), and the OS process/socket tables
and uid that `psutil`/`os` report. -/
structure World where
  servers : List (String × TmuxServer)
  layoutOk : String → Nat → Bool
  procs : List (Nat × String)
  conns : List (Option Nat × String)
  uid : Nat
  icEnabled : Bool

/-- Python exceptions the program distinguishes. -/
inductive Err where
  | errorReturnCode : Err
  | valueError : String → Err
deriving DecidableEq

/-- The tmux subcommands the program invokes (arguments as in the source). -/
inductive Cmd where
  | startServer
  | killSession (target : String)
  | hasSession (target : String)
  | newSession (name : String) (command : List String)
  | setOption (target : String) (opt : String) (value : String)
  | displayMessage (target : String) (fmt : String)
  | respawnPane (target : String) (kill : Bool) (command : List String)
  | splitWindow (target : String) (command : List String)
  | selectLayout (target : String) (layout : String)
  | newWindow (target : String) (name : String) (command : List String)
  | selectWindow (target : String)
  | listWindows (target : String) (fmt : String)
  | selectPane (target : String) (title : String)
  | listSessions (fmt : String) (filter : Option String)
deriving DecidableEq

/-- One external call made by the program. -/
inductive Call where
  | tmux (serverName : String) (c : Cmd)
  | osSystem (command : String)
  | eprintCall (msg : String)
  | outputLine (server : String) (line : String)
  | inputPrompt
deriving DecidableEq

/-- The mutable fields of a `MultiPaneSession` object.  `current_window`
is `None` in Python only between the start of `__init__` and its last
line; that transient value is modelled by `""`. -/
structure SessState where
  serverName : String
  sessionName : String
  layout : String
  currentWindow : String
  paneCount : Nat
deriving DecidableEq

/-- A default (pre-`__init__`) orchestrator state. -/
def initState : SessState :=
  { serverName := "", sessionName := "", layout := "", currentWindow := "", paneCount := 0 }

/-- The program monad: orchestrator state, world, `Except` for exceptions,
and a trace of external calls.  Mirrors Python semantics: field mutations
made before an exception persist. -/
def M (α : Type) : Type :=
  SessState → World → (Except Err α × SessState × World × List Call)

def mPure {α : Type} (a : α) : M α := fun s w => (Except.ok a, s, w, [])

def mBind {α β : Type} (x : M α) (f : α → M β) : M β := fun s w =>
  match x s w with
  | (Except.ok a, s1, w1, t1) =>
      match f a s1 w1 with
      | (r, s2, w2, t2) => (r, s2, w2, t1 ++ t2)
  | (Except.error e, s1, w1, t1) => (Except.error e, s1, w1, t1)

instance instMonadM : Monad M where
  pure := mPure
  bind := mBind

def getS : M SessState := fun s w => (Except.ok s, s, w, [])

def setS (s2 : SessState) : M Unit := fun _ w => (Except.ok (), s2, w, [])

def modifyS (f : SessState → SessState) : M Unit := fun s w => (Except.ok (), f s, w, [])

def getW : M World := fun s w => (Except.ok w, s, w, [])

def recordCall (c : Call) : M Unit := fun s w => (Except.ok (), s, w, [c])

def throwE {α : Type} (e : Err) : M α := fun s w => (Except.error e, s, w, [])

/-- Python `try: x except sh.ErrorReturnCode: handler`.  Only
`sh.ErrorReturnCode` is caught; `ValueError` propagates.  Mutations made
by `x` before the exception persist, as in Python. -/
def catchERC {α : Type} (x : M α) (handler : M α) : M α := fun s w =>
  match x s w with
  | (Except.ok a, s1, w1, t1) => (Except.ok a, s1, w1, t1)
  | (Except.error Err.errorReturnCode, s1, w1, t1) =>
      match handler s1 w1 with
      | (r, s2, w2, t2) => (r, s2, w2, t1 ++ t2)
  | (Except.error e, s1, w1, t1) => (Except.error e, s1, w1, t1)

/-- Result of a run. -/
def resOf {α : Type} (r : Except Err α × SessState × World × List Call) : Except Err α := r.1

/-- Orchestrator state after a run. -/
def stOf {α : Type} (r : Except Err α × SessState × World × List Call) : SessState := r.2.1

/-- World after a run. -/
def wOf {α : Type} (r : Except Err α × SessState × World × List Call) : World := r.2.2.1

/-- Trace of external calls of a run. -/
def traceOf {α : Type} (r : Except Err α × SessState × World × List Call) : List Call := r.2.2.2

/-! ### Model of the external tmux binary

tmux itself is out of scope for the tool (an external collaborator); the
functions below model the handful of subcommands the tool invokes, as
state transitions on `World`.  `none` models a nonzero exit status
(`sh.ErrorReturnCode`), `some (out, w)` a success printing `out`. -/

def emptyServer : TmuxServer := { sessions := [], nextWin := 0, nextPane := 0 }

def getServer (w : World) (name : String) : Option TmuxServer :=
  (w.servers.find? (fun p => p.1 == name)).map (fun p => p.2)

def putServer (w : World) (name : String) (srv : TmuxServer) : World :=
  { w with servers := w.servers.map (fun p => if p.1 == name then (p.1, srv) else p) }

def findSession (srv : TmuxServer) (name : String) : Option TSession :=
  srv.sessions.find? (fun t => t.tsName == name)

def updateSession (srv : TmuxServer) (name : String) (f : TSession → TSession) : TmuxServer :=
  { srv with sessions := srv.sessions.map (fun t => if t.tsName == name then f t else t) }

/-- Resolve a window target part: `@N` selects by window id, otherwise by
window name (as tmux does for the targets this tool builds). -/
def findWindowIn (sess : TSession) (wstr : String) : Option Window :=
  if pyStartsWith wstr ("@") then
    sess.windows.find? (fun win => ("@" ++ Nat.repr win.windowId) == wstr)
  else
    sess.windows.find? (fun win => win.winName == wstr)

def updateWindowIn (sess : TSession) (wid : Nat) (win2 : Window) : TSession :=
  { sess with windows := sess.windows.map (fun x => if x.windowId == wid then win2 else x) }

def windowIdStr (n : Nat) : String := "@" ++ Nat.repr n

def paneIdStr (n : Nat) : String := "%" ++ Nat.repr n

/-- Parse a tmux target of the shapes this tool builds:
`sess`, `sess:win` or `sess:win.paneIndex`. -/
def parseTarget (t : String) : Option (String × Option (String × Option String)) :=
  match splitChar ':' t with
  | [s] => some (s, none)
  | [s, rest] =>
      match splitChar '.' rest with
      | [wpart] => some (s, some (wpart, none))
      | [wpart, ppart] => some (s, some (wpart, some ppart))
      | _ => none
  | _ => none

/-- The `-F` format strings the tool passes to tmux (braces escaped). -/
def fmtWindowId : String := "#\x7bwindow_id\x7d"

def fmtPaneId : String := "#\x7bpane_id\x7d"

def fmtWindowName : String := "#\x7bwindow_name\x7d"

/-- The `list-sessions` format string baked in `list_tmux`, including its
literal surrounding double quotes. -/
def sessionFormat : String := "\"#\x7bsession_created\x7d #\x7bsession_name\x7d: #\x7bsession_windows\x7d windows (created #\x7bt:session_created\x7d)#\x7b?session_grouped, (group ,\x7d#\x7bsession_group\x7d#\x7b?session_grouped,),\x7d #\x7bpane_title\x7d #\x7b?session_attached,(attached),\x7d\""

/-- The `-f` filter baked for `only_detached`. -/
def detachedFilter : String := "#\x7b==:#\x7bsession_attached\x7d,0\x7d"

/-- The `-f` filter baked for `only_attached`. -/
def attachedFilter : String := "#\x7bsession_attached\x7d"

def renderDisplay (fmt : String) (win : Window) (p : Option Pane) (w : World) :
    Option (String × World) :=
  if fmt == fmtWindowId then some (windowIdStr win.windowId, w)
  else if fmt == fmtPaneId then
    match p with
    | some pane => some (paneIdStr pane.paneId, w)
    | none => none
  else none

def displayExec (srv : TmuxServer) (target fmt : String) (w : World) :
    Option (String × World) :=
  match parseTarget target with
  | some (sname, rest) =>
      match findSession srv sname with
      | none => none
      | some sess =>
          match rest with
          | none =>
              match sess.windows.find? (fun win => win.windowId == sess.curWin) with
              | none => none
              | some win => renderDisplay fmt win win.panes.head? w
          | some (wstr, pstr?) =>
              match findWindowIn sess wstr with
              | none => none
              | some win =>
                  match pstr? with
                  | none => renderDisplay fmt win win.panes.head? w
                  | some pstr =>
                      match natOfString pstr with
                      | none => none
                      | some idx =>
                          match win.panes.get? idx with
                          | none => none
                          | some p => renderDisplay fmt win (some p) w
  | none => none

def respawnExec (serverName : String) (srv : TmuxServer) (target : String)
    (cmd : List String) (w : World) : Option (String × World) :=
  match parseTarget target with
  | some (sname, some (wstr, some pstr)) =>
      match findSession srv sname, natOfString pstr with
      | some sess, some idx =>
          match findWindowIn sess wstr with
          | some win =>
              match win.panes.get? idx with
              | some p =>
                  let win2 := { win with panes := win.panes.set idx { p with command := cmd } }
                  some ("", putServer w serverName
                    (updateSession srv sname (fun t => updateWindowIn t win.windowId win2)))
              | none => none
          | none => none
      | _, _ => none
  | _ => none

def splitExec (serverName : String) (srv : TmuxServer) (target : String)
    (cmd : List String) (w : World) : Option (String × World) :=
  match parseTarget target with
  | some (sname, some (wstr, none)) =>
      match findSession srv sname with
      | some sess =>
          match findWindowIn sess wstr with
          | some win =>
              let newPane : Pane := { paneId := srv.nextPane, command := cmd, title := none }
              let win2 := { win with panes := win.panes ++ [newPane] }
              some (paneIdStr srv.nextPane,
                putServer w serverName
                  { (updateSession srv sname (fun t => updateWindowIn t win.windowId win2)) with
                      nextPane := srv.nextPane + 1 })
          | none => none
      | none => none
  | _ => none

def layoutExec (srv : TmuxServer) (target layout : String) (w : World) :
    Option (String × World) :=
  match parseTarget target with
  | some (sname, some (wstr, none)) =>
      match findSession srv sname with
      | some sess =>
          match findWindowIn sess wstr with
          | some win => if w.layoutOk layout win.panes.length then some ("", w) else none
          | none => none
      | none => none
  | _ => none

def newWindowExec (serverName : String) (srv : TmuxServer) (target name : String)
    (cmd : List String) (w : World) : Option (String × World) :=
  match findSession srv target with
  | some _ =>
      let win : Window :=
        { windowId := srv.nextWin, winName := name,
          panes := [{ paneId := srv.nextPane, command := cmd, title := none }] }
      some (windowIdStr srv.nextWin,
        putServer w serverName
          { (updateSession srv target (fun t => { t with windows := t.windows ++ [win] })) with
              nextWin := srv.nextWin + 1, nextPane := srv.nextPane + 1 })
  | none => none

def selectWindowExec (serverName : String) (srv : TmuxServer) (target : String)
    (w : World) : Option (String × World) :=
  match parseTarget target with
  | some (sname, some (wstr, none)) =>
      match findSession srv sname with
      | some sess =>
          match findWindowIn sess wstr with
          | some win =>
              some ("", putServer w serverName
                (updateSession srv sname (fun t => { t with curWin := win.windowId })))
          | none => none
      | none => none
  | _ => none

def selectPaneExec (serverName : String) (srv : TmuxServer) (target title : String)
    (w : World) : Option (String × World) :=
  if pyStartsWith target ("%") then
    match natOfString (stringDrop target 1) with
    | some pid =>
        if srv.sessions.any (fun t => t.windows.any (fun win =>
            win.panes.any (fun p => p.paneId == pid))) then
          some ("", putServer w serverName
            { srv with sessions := srv.sessions.map (fun t =>
                { t with windows := t.windows.map (fun win =>
                    { win with panes := win.panes.map (fun p =>
                        if p.paneId == pid then { p with title := some title } else p) }) }) })
        else none
    | none => none
  else none

/-- The `#{pane_title}` of a session: title of the first pane of the
session's current window (tmux default title modelled as `""`). -/
def activePaneTitle (t : TSession) : String :=
  match t.windows.find? (fun win => win.windowId == t.curWin) with
  | some win =>
      match win.panes.head? with
      | some p => match p.title with | some s => s | none => ""
      | none => ""
  | none => ""

/-- One output line of `list-sessions` under the format `sessionFormat`. -/
def renderSessionLine (t : TSession) : String :=
  "\"" ++ Nat.repr t.created ++ " " ++ t.tsName ++ ": " ++ Nat.repr t.windows.length
    ++ " windows (created " ++ Nat.repr t.created ++ ")"
    ++ (if t.grouped then " (group " else "") ++ t.groupName
    ++ (if t.grouped then ")" else "")
    ++ " " ++ activePaneTitle t ++ " "
    ++ (if t.attached then "(attached)" else "") ++ "\""

def applyFilter (filt : Option String) (l : List TSession) : List TSession :=
  match filt with
  | none => l
  | some f =>
      if f == detachedFilter then l.filter (fun t => ¬ t.attached)
      else if f == attachedFilter then l.filter (fun t => t.attached)
      else l

def tmuxExecOn (serverName : String) (srv : TmuxServer) (c : Cmd) (w : World) :
    Option (String × World) :=
  match c with
  | Cmd.startServer => some ("", w)
  | Cmd.killSession target =>
      match findSession srv target with
      | some _ => some ("", putServer w serverName
          { srv with sessions := srv.sessions.filter (fun t => ¬ (t.tsName == target)) })
      | none => none
  | Cmd.hasSession target =>
      match findSession srv target with
      | some _ => some ("", w)
      | none => none
  | Cmd.newSession name cmd =>
      match findSession srv name with
      | some _ => none
      | none =>
          let win : Window :=
            { windowId := srv.nextWin, winName := "0",
              panes := [{ paneId := srv.nextPane, command := cmd, title := none }] }
          let sess : TSession :=
            { tsName := name, created := 0, attached := false,
              grouped := false, groupName := "", windows := [win], curWin := srv.nextWin }
          some ("", putServer w serverName
            { srv with
                sessions := srv.sessions ++ [sess],
                nextWin := srv.nextWin + 1, nextPane := srv.nextPane + 1 })
  | Cmd.setOption target _opt _val =>
      match findSession srv target with
      | some _ => some ("", w)
      | none => none
  | Cmd.displayMessage target fmt => displayExec srv target fmt w
  | Cmd.respawnPane target _kill cmd => respawnExec serverName srv target cmd w
  | Cmd.splitWindow target cmd => splitExec serverName srv target cmd w
  | Cmd.selectLayout target layout => layoutExec srv target layout w
  | Cmd.newWindow target name cmd => newWindowExec serverName srv target name cmd w
  | Cmd.selectWindow target => selectWindowExec serverName srv target w
  | Cmd.listWindows target _fmt =>
      match findSession srv target with
      | some sess => some (String.intercalate "\n" (sess.windows.map (fun win => win.winName)), w)
      | none => none
  | Cmd.selectPane target title => selectPaneExec serverName srv target title w
  | Cmd.listSessions _fmt filt =>
      some (String.intercalate "\n" ((applyFilter filt srv.sessions).map renderSessionLine), w)

/-- Execute one tmux invocation against the world.  `start-server` creates
the server if missing; every other subcommand fails when the server is not
running (the tool always issues `start-server` first). -/
def tmuxExec (serverName : String) (c : Cmd) (w : World) : Option (String × World) :=
  match c with
  | Cmd.startServer =>
      match getServer w serverName with
      | some _ => some ("", w)
      | none => some ("", { w with servers := w.servers ++ [(serverName, emptyServer)] })
  | _ =>
      match getServer w serverName with
      | none => none
      | some srv => tmuxExecOn serverName srv c w

/-- Model of `sh.tmux("-L", server, ...)` with an explicit server name. -/
def tmuxF (server : String) (c : Cmd) : M String := fun s w =>
  match tmuxExec server c w with
  | some (out, w2) => (Except.ok out, s, w2, [Call.tmux server c])
  | none => (Except.error Err.errorReturnCode, s, w, [Call.tmux server c])

/-! ### The `MultiPaneSession` orchestrator (`tmuxtool.py`, lines 39-303) -/

namespace MultiPaneSession

/-- Method `self._tmux(*args)`: tmux with the server name taken from `self`. -/
def _tmux (c : Cmd) : M String := fun s w => tmuxF s.serverName c s w

/-- Method `self._get_current_window()`. -/
def _get_current_window : M String := do
  let st ← getS
  let result ← tmuxF st.serverName (Cmd.displayMessage st.sessionName fmtWindowId)
  pure (pyStrip result)

/-- Constructor `MultiPaneSession.__init__`: start the server, optionally kill an
existing session, create the session with a `sleep infinity` placeholder
if absent, set `remain-on-exit failed`, record the current window id. -/
def initSession (server_name session_name layout : String) (force_new : Bool) : M Unit := do
  setS { serverName := server_name, sessionName := session_name, layout := layout,
         currentWindow := "", paneCount := 0 }
  let _ ← tmuxF server_name Cmd.startServer
  (if force_new then
    catchERC (do
        let _ ← tmuxF server_name (Cmd.killSession session_name)
        pure ())
      (pure ())
  else pure ())
  catchERC (do
      let _ ← tmuxF server_name (Cmd.hasSession session_name)
      pure ())
    (do
      let _ ← tmuxF server_name (Cmd.newSession session_name (["sleep", "infinity"]))
      pure ())
  let _ ← tmuxF server_name (Cmd.setOption session_name ("remain-on-exit") ("failed"))
  let cw ← _get_current_window
  modifyS (fun st => { st with currentWindow := cw })

/-- Method `MultiPaneSession.apply_layout`. -/
def apply_layout (layout : Option String) : M Unit := do
  let st ← getS
  let layout_to_use := match layout with | some l => l | none => st.layout
  catchERC (do
      let _ ← _tmux (Cmd.selectLayout (st.sessionName ++ ":" ++ st.currentWindow) layout_to_use)
      pure ())
    (pure ())

/-- Method `MultiPaneSession.new_window`. -/
def new_window (name : String) : M String := do
  let st ← getS
  let window_id ← _tmux (Cmd.newWindow st.sessionName name (["sleep", "infinity"]))
  let window_id := pyStrip window_id
  modifyS (fun st => { st with currentWindow := name, paneCount := 0 })
  pure window_id

/-- Method `MultiPaneSession._ensure_window`: inside `try`, list the windows; if
the name is listed, select it, set `current_window` and return; on
`sh.ErrorReturnCode` anywhere in the `try` fall through; otherwise create
the window via `new_window`. -/
def _ensure_window (window_name : String) : M Unit := do
  let found ← catchERC (do
      let st ← getS
      let result ← _tmux (Cmd.listWindows st.sessionName fmtWindowName)
      let windows := splitChar '\n' (pyStrip result)
      if window_name ∈ windows then do
        let _ ← _tmux (Cmd.selectWindow (st.sessionName ++ ":" ++ window_name))
        modifyS (fun st => { st with currentWindow := window_name })
        pure true
      else
        pure false)
    (pure false)
  if found then
    pure ()
  else do
    let _ ← new_window window_name
    pure ()

/-- Method `MultiPaneSession.add_pane`. -/
def add_pane (command : List String) (title : Option String) (window : Option String) :
    M String := do
  if command.isEmpty then
    throwE (Err.valueError ("Command cannot be empty"))
  else do
    (match window with
     | some wname => _ensure_window wname
     | none => pure ())
    let st ← getS
    let pane_id ←
      (if st.paneCount = 0 then do
        let target := st.sessionName ++ ":" ++ st.currentWindow ++ ".0"
        let _ ← _tmux (Cmd.respawnPane target true command)
        let pane_id ← _tmux (Cmd.displayMessage target fmtPaneId)
        pure (pyStrip pane_id)
      else do
        let pane_id ← _tmux (Cmd.splitWindow (st.sessionName ++ ":" ++ st.currentWindow) command)
        let pane_id := pyStrip pane_id
        apply_layout none
        pure pane_id)
    modifyS (fun st => { st with paneCount := st.paneCount + 1 })
    (match title with
     | some t => do
        let _ ← _tmux (Cmd.selectPane pane_id t)
        pure ()
     | none => pure ())
    pure pane_id

/-- Method `MultiPaneSession.__exit__`: apply the final layout, return `False`
(exceptions are not suppressed). -/
def __exit__ : M Bool := do
  apply_layout none
  pure false

/-- Python `with`-statement semantics for a `MultiPaneSession` body: run
the body; run `__exit__` whether it completed or raised; if the body
raised and `__exit__` returns a falsy value, the exception continues to
propagate (a truthy value would suppress it). -/
def runWith (body : M Unit) : M Unit := fun s w =>
  match body s w with
  | (Except.ok a, s1, w1, t1) =>
      match __exit__ s1 w1 with
      | (Except.ok _, s2, w2, t2) => (Except.ok a, s2, w2, t1 ++ t2)
      | (Except.error e2, s2, w2, t2) => (Except.error e2, s2, w2, t1 ++ t2)
  | (Except.error e, s1, w1, t1) =>
      match __exit__ s1 w1 with
      | (Except.ok suppress, s2, w2, t2) =>
          ((if suppress then Except.ok () else Except.error e), s2, w2, t1 ++ t2)
      | (Except.error e2, s2, w2, t2) => (Except.error e2, s2, w2, t1 ++ t2)

end MultiPaneSession

/-! ### Free functions (`tmuxtool.py`, lines 306-668) -/

/-- Modelled from the spec: `maxone` from the external `asserttool`
dependency (its code is not part of this repository).  Per the spec,
mutually exclusive filters both set are "a usage error reported before any
external call is made"; `maxone` raises a `ValueError` when more than one
of the given flags is truthy, and does nothing otherwise. -/
def maxone (flags : List Bool) : M Unit :=
  if (flags.filter (fun b => b)).length > 1 then
    throwE (Err.valueError ("maxone: more than one value is truthy"))
  else
    pure ()

/-- Function `list_tmux`: check the filters are mutually exclusive, then run one
`list-sessions` query (with a `-f` filter when requested) and yield the
stripped output split into lines. -/
def list_tmux (server_name : String) (show_command only_detached only_attached : Bool) :
    M (List String) := do
  maxone [only_attached, only_detached]
  let filt := if only_detached then some detachedFilter
    else if only_attached then some attachedFilter
    else none
  let out ← tmuxF server_name (Cmd.listSessions sessionFormat filt)
  pure (splitChar '\n' (pyStrip out))

/-- Function `get_server_pids`: pids of processes named `tmux: server`. -/
def get_server_pids (w : World) : List Nat :=
  (w.procs.filter (fun p => p.2 == "tmux: server")).map (fun p => p.1)

/-- The runtime directory psutil socket paths are matched against. -/
def tmuxRunDir (uid : Nat) : String := "/tmp/tmux-" ++ Nat.repr uid ++ "/"

/-- Python `set.add`: append if absent (iteration order abstracted as
insertion order; the properties proved below do not depend on it). -/
def insertAbsent (acc : List String) (x : String) : List String :=
  if x ∈ acc then acc else acc ++ [x]

def get_server_sockets_go (pids : List Nat) (uid : Nat) :
    List (Option Nat × String) → List String → List String
  | [], acc => acc
  | (pid?, laddr) :: rest, acc =>
      match pid? with
      | some pid =>
          if pid ∈ pids then
            if pyStartsWith laddr (tmuxRunDir uid) then
              get_server_sockets_go pids uid rest (insertAbsent acc laddr)
            else
              get_server_sockets_go pids uid rest acc
          else
            get_server_sockets_go pids uid rest acc
      | none => get_server_sockets_go pids uid rest acc

/-- Function `get_server_sockets`: the set of unix-socket paths owned by a tmux
server process and lying under `/tmp/tmux-<uid>/`. -/
def get_server_sockets (w : World) : List String :=
  get_server_sockets_go (get_server_pids w) w.uid w.conns []

/-- Function `get_tmux_server_names`: final path components of the server sockets. -/
def get_tmux_server_names (w : World) : List String :=
  (get_server_sockets w).map pathName

/-- The server-list resolution both `ls` and `attach` perform: an explicit
nonempty argument list is used as is, otherwise all discovered servers. -/
def resolveServers (w : World) (server_names : List String) : List String :=
  if server_names.isEmpty then get_tmux_server_names w else server_names

def list_all_sessions_go (only_detached : Bool) : List String → M (List (String × String))
  | [] => pure []
  | server :: rest => do
      let lines ← list_tmux server false only_detached false
      let tail ← list_all_sessions_go only_detached rest
      pure (lines.map (fun line => (server, line)) ++ tail)

/-- Function `list_all_sessions`: for each server (all discovered ones when none
given) yield `(server, line)` for each enumerated session line. -/
def list_all_sessions (servers : List String) (only_detached : Bool) :
    M (List (String × String)) := do
  let w ← getW
  let servers := resolveServers w servers
  list_all_sessions_go only_detached servers

def outputPairs : List (String × String) → M Unit
  | [] => pure ()
  | (server, line) :: rest => do
      recordCall (Call.outputLine server line)
      outputPairs rest

/-- The `ls` command: resolve the server list, enumerate all sessions with
`only_detached=False` (the `--detached` flag is accepted but never used),
and output each line. -/
def ls (server_names : List String) (detached : Bool) : M Unit := do
  let w ← getW
  let iterator := resolveServers w server_names
  let pairs ← list_all_sessions iterator false
  outputPairs pairs

/-- The `list` command: an alias that invokes `ls` with the same
arguments, `detached` included. -/
def alias_list_ls (server_names : List String) (detached : Bool) : M Unit :=
  ls server_names detached

/-- The body of the per-line `attach` loop: skip lines ending in
`(attached)`, otherwise derive the target from the line's leading field,
build the attach command (wrapped in an xterm invocation when
`all_at_once`), report it when `ic` is enabled, and execute it via
`os.system` unless `simulate`. -/
def attachLine (server : String) (simulate all_at_once : Bool) (line : String) : M Unit := do
  if pyEndsWith line ("(attached)") then
    pure ()
  else do
    let window_id := (splitChar ' ' ((splitChar ':' line).headD (""))).getLastD ""
    let command := "tmux -L " ++ server ++ " attach -t " ++ window_id
    let command := if all_at_once then "/usr/bin/xterm -e \x27" ++ command ++ "\x27" ++ " &"
      else command
    let w ← getW
    (if w.icEnabled then
      recordCall (Call.eprintCall ("attaching: " ++ command))
    else pure ())
    if simulate then
      pure ()
    else
      recordCall (Call.osSystem command)

def attachLines (server : String) (simulate all_at_once : Bool) : List String → M Unit
  | [] => pure ()
  | line :: rest => do
      attachLine server simulate all_at_once line
      attachLines server simulate all_at_once rest

def attachServer (server : String) (simulate all_at_once : Bool) : M Unit := do
  let lines ← list_tmux server false true false
  attachLines server simulate all_at_once lines

def attachServers (simulate all_at_once : Bool) : List String → M Unit
  | [] => pure ()
  | server :: rest => do
      attachServer server simulate all_at_once
      attachServers simulate all_at_once rest

/-- The `attach` command: resolve the server list (all discovered ones
when none given), optionally reverse it and pause for confirmation, then
for each server enumerate its detached sessions and attach to each. -/
def attach (server_names : List String) (reverse simulate all_at_once : Bool) : M Unit := do
  let w ← getW
  let iterator := resolveServers w server_names
  let _iterator ←
    (if reverse then do
      recordCall Call.inputPrompt
      pure iterator.reverse
    else pure iterator)
  attachServers simulate all_at_once _iterator

/-! ### Observation helpers and concrete scenario inputs -/

/-- A `respawn-pane -k` (kill-and-replace) invocation. -/
def isRespawnKill (c : Call) : Bool :=
  match c with
  | Call.tmux _ (Cmd.respawnPane _ true _) => true
  | _ => false

/-- A `split-window` invocation. -/
def isSplitCall (c : Call) : Bool :=
  match c with
  | Call.tmux _ (Cmd.splitWindow _ _) => true
  | _ => false

/-- A `select-layout` invocation. -/
def isSelectLayout (c : Call) : Bool :=
  match c with
  | Call.tmux _ (Cmd.selectLayout _ _) => true
  | _ => false

/-- Number of `select-layout` invocations in a trace. -/
def countSelectLayout (t : List Call) : Nat := (t.filter isSelectLayout).length

/-- No `os.system` call (the only way `attach` spawns an attach process)
occurs in the trace. -/
def noOsSystem (t : List Call) : Bool :=
  t.all (fun c => match c with | Call.osSystem _ => false | _ => true)

/-- Calls the `ls` command is allowed to make: unfiltered `list-sessions`
queries and output lines. -/
def lsCallOk (c : Call) : Bool :=
  match c with
  | Call.tmux _ (Cmd.listSessions _ none) => true
  | Call.outputLine _ _ => true
  | _ => false

/-- Number of panes in the window the orchestrator currently tracks. -/
def panesInTrackedWindow (st : SessState) (w : World) : Option Nat :=
  match getServer w st.serverName with
  | some srv =>
      match findSession srv st.sessionName with
      | some sess =>
          match findWindowIn sess st.currentWindow with
          | some win => some win.panes.length
          | none => none
      | none => none
  | none => none

/-- A world with no tmux servers, no processes and no sockets. -/
def emptyWorld : World :=
  { servers := [], layoutOk := fun _ _ => true, procs := [], conns := [],
    uid := 0, icEnabled := false }

/-- A plain construction run on the empty world. -/
def initRun : Except Err Unit × SessState × World × List Call :=
  (MultiPaneSession.initSession ("srv") ("sess") ("tiled") false : M Unit) initState emptyWorld

/-- Construction followed by a single `add_pane` (the claim C1 scenario). -/
def firstAddPane (command : List String) (title : Option String) : M String := do
  MultiPaneSession.initSession ("srv") ("sess") ("tiled") false
  MultiPaneSession.add_pane command title none

/-- Construction followed by `new_window` (the claim C3 scenario). -/
def initThenNewWindow : M Unit := do
  MultiPaneSession.initSession ("srv") ("sess") ("tiled") false
  let _ ← MultiPaneSession.new_window ("w2")
  pure ()

/-- Construction, `new_window`, then `add_pane` (the claim C3 scenario). -/
def newWindowThenAdd (command : List String) (title : Option String) : M String := do
  MultiPaneSession.initSession ("srv") ("sess") ("tiled") false
  let _ ← MultiPaneSession.new_window ("w2")
  MultiPaneSession.add_pane command title none

/-- Claim C2 counterexample, steps before the window switch: construct,
create windows `w1` and `w2`, add one pane (into `w2`). -/
def c2Between : M Unit := do
  MultiPaneSession.initSession ("srv") ("sess") ("tiled") false
  let _ ← MultiPaneSession.new_window ("w1")
  let _ ← MultiPaneSession.new_window ("w2")
  let _ ← MultiPaneSession.add_pane (["c"]) none none
  pure ()

/-- Claim C2 counterexample, the operation that switches the current
window back to the already-existing `w1`. -/
def c2FinalRun : Except Err String × SessState × World × List Call :=
  MultiPaneSession.add_pane (["c"]) none (some ("w1"))
    (stOf (c2Between initState emptyWorld)) (wOf (c2Between initState emptyWorld))

/-- A world where one tmux server process owns two sockets under the
runtime directory whose paths differ but share their final component. -/
def dupWorld : World :=
  { servers := [], layoutOk := fun _ _ => true, procs := [(5, "tmux: server")],
    conns := [(some 5, "/tmp/tmux-0/sub/a"), (some 5, "/tmp/tmux-0/a")],
    uid := 0, icEnabled := false }

/-- A world with a socket under the runtime directory but no running
`tmux: server` process. -/
def proclessWorld : World :=
  { servers := [], layoutOk := fun _ _ => true, procs := [(7, "bash")],
    conns := [(some 7, "/tmp/tmux-0/a")], uid := 0, icEnabled := false }

/-- The single window of the `sampleWorld` session. -/
def sampleWindow : Window :=
  { windowId := 0
    winName := "0"
    panes := [{ paneId := 0, command := ["sleep", "infinity"], title := none }] }

/-- The single detached session of `sampleWorld`. -/
def sampleSession : TSession :=
  { tsName := "s1"
    created := 0
    attached := false
    grouped := false
    groupName := ""
    windows := [sampleWindow]
    curWin := 0 }

/-- A world with one server `srv` holding one detached session `s1`. -/
def sampleWorld : World :=
  { servers := [("srv", { sessions := [sampleSession], nextWin := 1, nextPane := 1 })]
    layoutOk := fun _ _ => true
    procs := []
    conns := []
    uid := 0
    icEnabled := true }

/-! ### Helper lemmas -/

instance instDecEqExcept {e a : Type} [DecidableEq e] [DecidableEq a] :
    DecidableEq (Except e a) := fun x y =>
  match x, y with
  | Except.ok v, Except.ok v2 =>
      if h : v = v2 then isTrue (by rw [h]) else isFalse (fun hh => h (Except.ok.inj hh))
  | Except.error v, Except.error v2 =>
      if h : v = v2 then isTrue (by rw [h]) else isFalse (fun hh => h (Except.error.inj hh))
  | Except.ok _, Except.error _ => isFalse (fun hh => Except.noConfusion hh)
  | Except.error _, Except.ok _ => isFalse (fun hh => Except.noConfusion hh)

@[simp] theorem bind_eq_mBind {α β : Type} (x : M α) (f : α → M β) :
    (x >>= f) = mBind x f := rfl

@[simp] theorem pure_eq_mPure {α : Type} (a : α) : (pure a : M α) = mPure a := rfl

/-- Lemma: `apply_layout` always succeeds, leaves the orchestrator state intact
and makes exactly one external call, the `select-layout` attempt. -/
theorem apply_layout_run (lay : Option String) (s : SessState) (w : World) :
    ∃ w2, MultiPaneSession.apply_layout lay s w =
      (Except.ok (), s, w2,
        [Call.tmux s.serverName (Cmd.selectLayout (s.sessionName ++ ":" ++ s.currentWindow)
          (match lay with | some l => l | none => s.layout))]) := by
  cases h : tmuxExec s.serverName
      (Cmd.selectLayout (s.sessionName ++ ":" ++ s.currentWindow)
        (match lay with | some l => l | none => s.layout)) w with
  | some pr =>
      obtain ⟨out, w2⟩ := pr
      refine ⟨w2, ?_⟩
      simp [MultiPaneSession.apply_layout, MultiPaneSession._tmux, tmuxF, getS, catchERC,
        mBind, mPure, h]
  | none =>
      refine ⟨w, ?_⟩
      simp [MultiPaneSession.apply_layout, MultiPaneSession._tmux, tmuxF, getS, catchERC,
        mBind, mPure, h]

/-- Lemma: `__exit__` always returns `Ok false`, leaves the orchestrator state
intact, and its trace is exactly one `select-layout` attempt. -/
theorem exit_run (s : SessState) (w : World) :
    ∃ w2, MultiPaneSession.__exit__ s w =
      (Except.ok false, s, w2,
        [Call.tmux s.serverName
          (Cmd.selectLayout (s.sessionName ++ ":" ++ s.currentWindow) s.layout)]) := by
  obtain ⟨w2, h⟩ := apply_layout_run none s w
  refine ⟨w2, ?_⟩
  simp [MultiPaneSession.__exit__, mBind, mPure, h]

/-! ### The claims -/

/-- Claim C1: on a freshly constructed orchestrator (no tmux server was
running, so the session is created with a placeholder, and
`pane_count = 0`), the first `add_pane` call replaces the placeholder via
`respawn-pane -k` rather than splitting: afterwards the tracked current
window holds exactly one pane (running the given command) and
`pane_count = 1`; the trace contains a kill-respawn and no
`split-window`. -/
theorem claim_C1 (w : World) (command : List String) (title : Option String)
    (hw : w.servers = []) (hc : command ≠ []) :
    resOf (firstAddPane command title initState w) = Except.ok ("%0") ∧
    (stOf (firstAddPane command title initState w)).paneCount = 1 ∧
    panesInTrackedWindow (stOf (firstAddPane command title initState w))
      (wOf (firstAddPane command title initState w)) = some 1 ∧
    (traceOf (firstAddPane command title initState w)).any isRespawnKill = true ∧
    (traceOf (firstAddPane command title initState w)).any isSplitCall = false := by
  obtain ⟨sv, lo, pr, cn, u, ic⟩ := w
  have hw2 : sv = [] := hw
  subst hw2
  rcases command with _ | ⟨c, cs⟩
  · exact absurd rfl hc
  · cases title <;>
      exact ⟨by with_unfolding_all rfl, by with_unfolding_all rfl, by with_unfolding_all rfl,
        by with_unfolding_all rfl, by with_unfolding_all rfl⟩

theorem claim_C1_witness :
    resOf (firstAddPane (["c"]) none initState emptyWorld) = Except.ok ("%0") ∧
    (stOf (firstAddPane (["c"]) none initState emptyWorld)).paneCount = 1 ∧
    panesInTrackedWindow (stOf (firstAddPane (["c"]) none initState emptyWorld))
      (wOf (firstAddPane (["c"]) none initState emptyWorld)) = some 1 ∧
    (traceOf (firstAddPane (["c"]) none initState emptyWorld)).any isRespawnKill = true ∧
    (traceOf (firstAddPane (["c"]) none initState emptyWorld)).any isSplitCall = false :=
  claim_C1 emptyWorld (["c"]) none rfl (by decide)

/-- Claim C2, counterexample: the claim asserts `pane_count` is reset to
zero whenever `current_window` changes, including when `add_pane` switches
to an already-existing window.  In the run below the orchestrator tracks
window `w2` with `pane_count = 1`; the subsequent
`add_pane ["c"] (window := "w1")` switches `current_window` to the
already-existing `w1`, yet `pane_count` ends at `2`: it was never reset in
that operation (any reset would have left it at most `1`, since the
operation increments exactly once). -/
theorem claim_C2_counterexample :
    (stOf (c2Between initState emptyWorld)).currentWindow = "w2" ∧
    (stOf (c2Between initState emptyWorld)).paneCount = 1 ∧
    resOf c2FinalRun = Except.ok ("%3") ∧
    (stOf c2FinalRun).currentWindow = "w1" ∧
    (stOf c2FinalRun).paneCount = 2 := by decide

/-- Claim C2 as amended: `pane_count` is reset to zero when the current
window changes through window creation — `new_window` (called directly or
from `_ensure_window` when the requested window does not exist) sets
`current_window` to the new window's name and `pane_count` to zero
whenever its tmux invocation succeeds.  Switching to an already-existing
window does not reset it (see the counterexample). -/
theorem claim_C2 (s : SessState) (w : World) (name : String)
    (h : (resOf (MultiPaneSession.new_window name s w)).isOk = true) :
    (stOf (MultiPaneSession.new_window name s w)).currentWindow = name ∧
    (stOf (MultiPaneSession.new_window name s w)).paneCount = 0 := by
  cases h2 : tmuxExec s.serverName (Cmd.newWindow s.sessionName name (["sleep", "infinity"])) w with
  | some pr =>
      obtain ⟨out, w2⟩ := pr
      constructor <;>
        simp [MultiPaneSession.new_window, MultiPaneSession._tmux, tmuxF, getS, modifyS,
          mBind, mPure, h2, stOf]
  | none =>
      exfalso
      simp [MultiPaneSession.new_window, MultiPaneSession._tmux, tmuxF, getS, modifyS,
        mBind, mPure, h2, resOf, Except.isOk, Except.toBool] at h

theorem claim_C2_witness :
    (stOf (MultiPaneSession.new_window ("w9") (stOf initRun) (wOf initRun))).currentWindow = "w9" ∧
    (stOf (MultiPaneSession.new_window ("w9") (stOf initRun) (wOf initRun))).paneCount = 0 :=
  claim_C2 (stOf initRun) (wOf initRun) ("w9") (by decide)

/-- Claim C3: `new_window` sets the tracked current window to the newly
created window (`current_window = "w2"`) and resets `pane_count` to zero,
so the following `add_pane` takes the first-pane branch: the trace shows a
kill-respawn and no `split-window`, and `pane_count` ends at `1`. -/
theorem claim_C3 (w : World) (command : List String) (title : Option String)
    (hw : w.servers = []) (hc : command ≠ []) :
    (stOf (initThenNewWindow initState w)).currentWindow = "w2" ∧
    (stOf (initThenNewWindow initState w)).paneCount = 0 ∧
    resOf (newWindowThenAdd command title initState w) = Except.ok ("%1") ∧
    (stOf (newWindowThenAdd command title initState w)).paneCount = 1 ∧
    (traceOf (newWindowThenAdd command title initState w)).any isRespawnKill = true ∧
    (traceOf (newWindowThenAdd command title initState w)).any isSplitCall = false := by
  obtain ⟨sv, lo, pr, cn, u, ic⟩ := w
  have hw2 : sv = [] := hw
  subst hw2
  rcases command with _ | ⟨c, cs⟩
  · exact absurd rfl hc
  · cases title <;>
      exact ⟨by with_unfolding_all rfl, by with_unfolding_all rfl, by with_unfolding_all rfl,
        by with_unfolding_all rfl, by with_unfolding_all rfl, by with_unfolding_all rfl⟩

theorem claim_C3_witness :
    (stOf (initThenNewWindow initState emptyWorld)).currentWindow = "w2" ∧
    (stOf (initThenNewWindow initState emptyWorld)).paneCount = 0 ∧
    resOf (newWindowThenAdd (["c"]) none initState emptyWorld) = Except.ok ("%1") ∧
    (stOf (newWindowThenAdd (["c"]) none initState emptyWorld)).paneCount = 1 ∧
    (traceOf (newWindowThenAdd (["c"]) none initState emptyWorld)).any isRespawnKill = true ∧
    (traceOf (newWindowThenAdd (["c"]) none initState emptyWorld)).any isSplitCall = false :=
  claim_C3 emptyWorld (["c"]) none rfl (by decide)

/-- Claim C4: `list_tmux` with both `only_detached` and `only_attached`
fails with a `ValueError` usage error, makes no external call (empty
trace) and leaves state and world untouched — for every server name. -/
theorem claim_C4 (server_name : String) (show_command : Bool) (s : SessState) (w : World) :
    list_tmux server_name show_command true true s w =
      (Except.error (Err.valueError ("maxone: more than one value is truthy")), s, w, []) := by
  with_unfolding_all rfl

/-- Claim C5: for every layout argument, orchestrator state and world,
`apply_layout` returns normally: a failing `select-layout` raises
`sh.ErrorReturnCode`, which is caught inside `apply_layout`. -/
theorem claim_C5 (lay : Option String) (s : SessState) (w : World) :
    resOf (MultiPaneSession.apply_layout lay s w) = Except.ok () := by
  obtain ⟨w2, h⟩ := apply_layout_run lay s w
  rw [resOf, h]

/-- Claim C6: leaving the orchestrator's `with`-scope runs `__exit__`
whether the body succeeded or raised; the overall result equals the
body's result (exceptions are not suppressed, normal completion is kept),
and the finalizer contributes exactly one `select-layout` application
(`apply_layout` invoked exactly once) appended after the body's trace. -/
theorem claim_C6 (body : M Unit) (s : SessState) (w : World) :
    resOf (MultiPaneSession.runWith body s w) = resOf (body s w) ∧
    traceOf (MultiPaneSession.runWith body s w) =
      traceOf (body s w) ++
        traceOf (MultiPaneSession.__exit__ (stOf (body s w)) (wOf (body s w))) ∧
    countSelectLayout
        (traceOf (MultiPaneSession.__exit__ (stOf (body s w)) (wOf (body s w)))) = 1 := by
  rcases hb : body s w with ⟨r, s1, w1, t1⟩
  obtain ⟨w2, he⟩ := exit_run s1 w1
  cases r with
  | ok a =>
      refine ⟨?_, ?_, ?_⟩ <;>
        simp [MultiPaneSession.runWith, hb, he, resOf, stOf, wOf, traceOf,
          countSelectLayout, isSelectLayout]
  | error e =>
      refine ⟨?_, ?_, ?_⟩ <;>
        simp [MultiPaneSession.runWith, hb, he, resOf, stOf, wOf, traceOf,
          countSelectLayout, isSelectLayout]

/-- Claim C9: `add_pane` with an empty command raises
`ValueError "Command cannot be empty"` immediately: no external call is
made (empty trace) and the orchestrator state and the world are
unchanged — for every state, world, title and window argument. -/
theorem claim_C9 (title window : Option String) (s : SessState) (w : World) :
    MultiPaneSession.add_pane [] title window s w =
      (Except.error (Err.valueError ("Command cannot be empty")), s, w, []) := by
  with_unfolding_all rfl

/-- Claim C10: the `ls` command behaves identically whatever the value of
its `--detached` flag (the parser accepts it, the body never reads it),
the `list` alias delegates to `ls` with the same arguments, and on a
sample world every tmux call `ls` makes is an unfiltered `list-sessions`
query. -/
theorem claim_C10 (server_names : List String) (d1 d2 : Bool) (s : SessState) (w : World) :
    ls server_names d1 s w = ls server_names d2 s w ∧
    alias_list_ls server_names d1 s w = ls server_names d1 s w ∧
    (traceOf (ls (["srv"]) true initState sampleWorld)).all lsCallOk = true := by
  exact ⟨by with_unfolding_all rfl, by with_unfolding_all rfl, by decide⟩

/-! ### Claim C7: server discovery -/

theorem insertAbsent_mem (acc : List String) (x y : String) :
    y ∈ insertAbsent acc x ↔ y ∈ acc ∨ y = x := by
  unfold insertAbsent
  by_cases h : x ∈ acc
  · simp only [if_pos h]
    constructor
    · exact Or.inl
    · rintro (h1 | rfl)
      · exact h1
      · exact h
  · simp [if_neg h]

theorem insertAbsent_nodup (acc : List String) (x : String) (h : acc.Nodup) :
    (insertAbsent acc x).Nodup := by
  unfold insertAbsent
  by_cases hx : x ∈ acc
  · simpa [if_pos hx] using h
  · simp [if_neg hx, List.nodup_append, h, hx]

theorem get_server_sockets_go_mem (pids : List Nat) (uid : Nat)
    (conns : List (Option Nat × String)) (acc : List String) (x : String) :
    x ∈ get_server_sockets_go pids uid conns acc ↔
      x ∈ acc ∨ ∃ pid, (some pid, x) ∈ conns ∧ pid ∈ pids ∧
        pyStartsWith x (tmuxRunDir uid) = true := by
  induction conns generalizing acc with
  | nil => simp [get_server_sockets_go]
  | cons hd tl ih =>
      obtain ⟨pid?, laddr⟩ := hd
      cases pid? with
      | none =>
          simp only [get_server_sockets_go, ih]
          constructor
          · rintro (h1 | ⟨pid, hmem, hp, hs⟩)
            · exact Or.inl h1
            · exact Or.inr ⟨pid, List.mem_cons_of_mem _ hmem, hp, hs⟩
          · rintro (h1 | ⟨pid, hmem, hp, hs⟩)
            · exact Or.inl h1
            · rcases List.mem_cons.mp hmem with heq | hmem2
              · simp at heq
              · exact Or.inr ⟨pid, hmem2, hp, hs⟩
      | some pid =>
          by_cases hp : pid ∈ pids
          · by_cases hs : pyStartsWith laddr (tmuxRunDir uid) = true
            · simp only [get_server_sockets_go, if_pos hp, if_pos hs, ih, insertAbsent_mem]
              constructor
              · rintro ((h1 | rfl) | ⟨pid2, hmem, hp2, hs2⟩)
                · exact Or.inl h1
                · exact Or.inr ⟨pid, List.mem_cons_self _ _, hp, hs⟩
                · exact Or.inr ⟨pid2, List.mem_cons_of_mem _ hmem, hp2, hs2⟩
              · rintro (h1 | ⟨pid2, hmem, hp2, hs2⟩)
                · exact Or.inl (Or.inl h1)
                · rcases List.mem_cons.mp hmem with heq | hmem2
                  · obtain ⟨h3, h4⟩ := Prod.mk.injEq .. ▸ heq
                    exact Or.inl (Or.inr h4)
                  · exact Or.inr ⟨pid2, hmem2, hp2, hs2⟩
            · simp only [get_server_sockets_go, if_pos hp, if_neg hs, ih]
              constructor
              · rintro (h1 | ⟨pid2, hmem, hp2, hs2⟩)
                · exact Or.inl h1
                · exact Or.inr ⟨pid2, List.mem_cons_of_mem _ hmem, hp2, hs2⟩
              · rintro (h1 | ⟨pid2, hmem, hp2, hs2⟩)
                · exact Or.inl h1
                · rcases List.mem_cons.mp hmem with heq | hmem2
                  · exfalso
                    obtain ⟨h3, h4⟩ := Prod.mk.injEq .. ▸ heq
                    exact hs (h4 ▸ hs2)
                  · exact Or.inr ⟨pid2, hmem2, hp2, hs2⟩
          · simp only [get_server_sockets_go, if_neg hp, ih]
            constructor
            · rintro (h1 | ⟨pid2, hmem, hp2, hs2⟩)
              · exact Or.inl h1
              · exact Or.inr ⟨pid2, List.mem_cons_of_mem _ hmem, hp2, hs2⟩
            · rintro (h1 | ⟨pid2, hmem, hp2, hs2⟩)
              · exact Or.inl h1
              · rcases List.mem_cons.mp hmem with heq | hmem2
                · exfalso
                  obtain ⟨h3, h4⟩ := Prod.mk.injEq .. ▸ heq
                  injection h3 with h5
                  exact hp (h5 ▸ hp2)
                · exact Or.inr ⟨pid2, hmem2, hp2, hs2⟩

theorem get_server_sockets_go_nodup (pids : List Nat) (uid : Nat)
    (conns : List (Option Nat × String)) (acc : List String) (h : acc.Nodup) :
    (get_server_sockets_go pids uid conns acc).Nodup := by
  induction conns generalizing acc with
  | nil => simpa [get_server_sockets_go] using h
  | cons hd tl ih =>
      obtain ⟨pid?, laddr⟩ := hd
      cases pid? with
      | none =>
          simp only [get_server_sockets_go]
          exact ih acc h
      | some pid =>
          by_cases hp : pid ∈ pids
          · by_cases hs : pyStartsWith laddr (tmuxRunDir uid) = true
            · simp only [get_server_sockets_go, if_pos hp, if_pos hs]
              exact ih _ (insertAbsent_nodup acc laddr h)
            · simp only [get_server_sockets_go, if_pos hp, if_neg hs]
              exact ih acc h
          · simp only [get_server_sockets_go, if_neg hp]
            exact ih acc h

/-- Claim C7, counterexample: in `dupWorld` both sockets are owned by a
running `tmux: server` process and both lie under the runtime directory,
yet `get_tmux_server_names` yields `"a"` twice — the yielded sequence of
names is not deduplicated (the code deduplicates socket paths, then maps
each to its final component without deduplicating again). -/
theorem claim_C7_counterexample :
    get_tmux_server_names dupWorld = ["a", "a"] ∧
    ¬ (get_tmux_server_names dupWorld).Nodup := by decide

/-- Claim C7 as amended: `get_tmux_server_names` yields the final path
components of the deduplicated collection of matching socket paths: a name
is yielded iff some socket owned by a running `tmux: server` process and
lying under the runtime directory has that final component (so names not
backed by a process+socket pair are excluded); the socket collection
itself is deduplicated, although yielded names may repeat when distinct
matching paths share a final component; and with no running server
process the result is empty, not an error. -/
theorem claim_C7 (w : World) (n : String) :
    (n ∈ get_tmux_server_names w ↔
      ∃ pid laddr, (some pid, laddr) ∈ w.conns ∧ pid ∈ get_server_pids w ∧
        pyStartsWith laddr (tmuxRunDir w.uid) = true ∧ pathName laddr = n) ∧
    (get_server_sockets w).Nodup ∧
    (get_server_pids w = [] → get_tmux_server_names w = []) := by
  refine ⟨?_, ?_, ?_⟩
  · unfold get_tmux_server_names get_server_sockets
    rw [List.mem_map]
    constructor
    · rintro ⟨laddr, hl, hn⟩
      rcases (get_server_sockets_go_mem _ _ _ _ _).mp hl with h1 | ⟨pid, hmem, hp, hs⟩
      · simp at h1
      · exact ⟨pid, laddr, hmem, hp, hs, hn⟩
    · rintro ⟨pid, laddr, hmem, hp, hs, hn⟩
      exact ⟨laddr, (get_server_sockets_go_mem _ _ _ _ _).mpr (Or.inr ⟨pid, hmem, hp, hs⟩), hn⟩
  · exact get_server_sockets_go_nodup _ _ _ _ List.nodup_nil
  · intro h
    rw [List.eq_nil_iff_forall_not_mem]
    intro x hx
    unfold get_tmux_server_names get_server_sockets at hx
    rcases List.mem_map.mp hx with ⟨laddr, hl, hn⟩
    rcases (get_server_sockets_go_mem _ _ _ _ _).mp hl with h1 | ⟨pid, hmem, hp, hs⟩
    · simp at h1
    · rw [h] at hp
      exact absurd hp (List.not_mem_nil _)

theorem claim_C7_witness : get_tmux_server_names proclessWorld = [] :=
  (claim_C7 proclessWorld ("x")).2.2 (by decide)

/-! ### Claim C8: attach with `--simulate` -/

theorem noOsSystem_append (t1 t2 : List Call) :
    noOsSystem (t1 ++ t2) = (noOsSystem t1 && noOsSystem t2) := by
  simp [noOsSystem, List.all_append]

/-- With `simulate = true`, the per-line attach step always succeeds,
changes nothing, and never calls `os.system`. -/
theorem attachLine_simulate (server : String) (all_at_once : Bool) (line : String)
    (s : SessState) (w : World) :
    resOf (attachLine server true all_at_once line s w) = Except.ok () ∧
    stOf (attachLine server true all_at_once line s w) = s ∧
    wOf (attachLine server true all_at_once line s w) = w ∧
    noOsSystem (traceOf (attachLine server true all_at_once line s w)) = true := by
  cases hend : pyEndsWith line ("(attached)") with
  | true =>
      refine ⟨?_, ?_, ?_, ?_⟩ <;>
        simp [attachLine, hend, mPure, mBind, getW, recordCall, resOf, stOf, wOf, traceOf,
          noOsSystem]
  | false =>
      cases hic : w.icEnabled with
      | true =>
          refine ⟨?_, ?_, ?_, ?_⟩ <;>
            simp [attachLine, hend, hic, mPure, mBind, getW, recordCall, resOf, stOf, wOf,
              traceOf, noOsSystem]
      | false =>
          refine ⟨?_, ?_, ?_, ?_⟩ <;>
            simp [attachLine, hend, hic, mPure, mBind, getW, recordCall, resOf, stOf, wOf,
              traceOf, noOsSystem]

/-- With `simulate = true`, the attach loop over session lines always
succeeds, changes nothing, and never calls `os.system`. -/
theorem attachLines_simulate (server : String) (all_at_once : Bool) (lines : List String)
    (s : SessState) (w : World) :
    resOf (attachLines server true all_at_once lines s w) = Except.ok () ∧
    stOf (attachLines server true all_at_once lines s w) = s ∧
    wOf (attachLines server true all_at_once lines s w) = w ∧
    noOsSystem (traceOf (attachLines server true all_at_once lines s w)) = true := by
  induction lines with
  | nil =>
      refine ⟨?_, ?_, ?_, ?_⟩ <;>
        simp [attachLines, mPure, resOf, stOf, wOf, traceOf, noOsSystem]
  | cons line rest ih =>
      have h1 := attachLine_simulate server all_at_once line s w
      rcases hx : attachLine server true all_at_once line s w with ⟨r, s1, w1, t1⟩
      rw [hx] at h1
      obtain ⟨hr, hs, hw, ht⟩ := h1
      simp only [resOf, stOf, wOf, traceOf] at hr hs hw ht
      rw [hr, hs, hw] at hx
      rcases hy : attachLines server true all_at_once rest s w with ⟨r2, s2, w2, t2⟩
      rw [hy] at ih
      obtain ⟨hr2, hs2, hw2, ht2⟩ := ih
      simp only [resOf, stOf, wOf, traceOf] at hr2 hs2 hw2 ht2
      rw [hr2, hs2, hw2] at hy
      refine ⟨?_, ?_, ?_, ?_⟩ <;>
        simp [attachLines, mBind, hx, hy, resOf, stOf, wOf, traceOf, noOsSystem_append, ht, ht2]

/-- On a running server, `list_tmux` with the detached-only filter makes
exactly one `list-sessions` call, succeeds, and changes nothing. -/
theorem list_tmux_detached_run (server : String) (s : SessState) (w : World)
    (srv : TmuxServer) (h : getServer w server = some srv) :
    list_tmux server false true false s w =
      (Except.ok (splitChar '\n' (pyStrip (String.intercalate "\n"
          ((applyFilter (some detachedFilter) srv.sessions).map renderSessionLine)))), s, w,
        [Call.tmux server (Cmd.listSessions sessionFormat (some detachedFilter))]) := by
  simp [list_tmux, maxone, mBind, mPure, throwE, tmuxF, tmuxExec, tmuxExecOn, h]

/-- With `simulate = true` and the server running, attaching the detached
sessions of one server succeeds, changes nothing, and never calls
`os.system`. -/
theorem attachServer_simulate (server : String) (all_at_once : Bool) (s : SessState)
    (w : World) (h : (getServer w server).isSome = true) :
    resOf (attachServer server true all_at_once s w) = Except.ok () ∧
    stOf (attachServer server true all_at_once s w) = s ∧
    wOf (attachServer server true all_at_once s w) = w ∧
    noOsSystem (traceOf (attachServer server true all_at_once s w)) = true := by
  obtain ⟨srv, hsrv⟩ := Option.isSome_iff_exists.mp h
  have hl := list_tmux_detached_run server s w srv hsrv
  have ha := attachLines_simulate server all_at_once
    (splitChar '\n' (pyStrip (String.intercalate "\n"
      ((applyFilter (some detachedFilter) srv.sessions).map renderSessionLine)))) s w
  rcases hy : attachLines server true all_at_once
      (splitChar '\n' (pyStrip (String.intercalate "\n"
        ((applyFilter (some detachedFilter) srv.sessions).map renderSessionLine)))) s w with
    ⟨r2, s2, w2, t2⟩
  rw [hy] at ha
  obtain ⟨hr2, hs2, hw2, ht2⟩ := ha
  simp only [resOf, stOf, wOf, traceOf] at hr2 hs2 hw2 ht2
  rw [hr2, hs2, hw2] at hy
  refine ⟨?_, ?_, ?_, ?_⟩
  · simp [attachServer, mBind, hl, hy, resOf]
  · simp [attachServer, mBind, hl, hy, stOf]
  · simp [attachServer, mBind, hl, hy, wOf]
  · simpa [attachServer, mBind, hl, hy, traceOf, noOsSystem] using ht2

/-- With `simulate = true` and all listed servers running, the attach loop
over servers succeeds, changes nothing, and never calls `os.system`. -/
theorem attachServers_simulate (all_at_once : Bool) (servers : List String) (s : SessState)
    (w : World) (h : ∀ srv ∈ servers, (getServer w srv).isSome = true) :
    resOf (attachServers true all_at_once servers s w) = Except.ok () ∧
    stOf (attachServers true all_at_once servers s w) = s ∧
    wOf (attachServers true all_at_once servers s w) = w ∧
    noOsSystem (traceOf (attachServers true all_at_once servers s w)) = true := by
  induction servers with
  | nil =>
      refine ⟨?_, ?_, ?_, ?_⟩ <;>
        simp [attachServers, mPure, resOf, stOf, wOf, traceOf, noOsSystem]
  | cons server rest ih =>
      have h1 := attachServer_simulate server all_at_once s w
        (h server (List.mem_cons_self _ _))
      rcases hx : attachServer server true all_at_once s w with ⟨r, s1, w1, t1⟩
      rw [hx] at h1
      obtain ⟨hr, hs, hw, ht⟩ := h1
      simp only [resOf, stOf, wOf, traceOf] at hr hs hw ht
      rw [hr, hs, hw] at hx
      have ih2 := ih (fun srv hsrv => h srv (List.mem_cons_of_mem _ hsrv))
      rcases hy : attachServers true all_at_once rest s w with ⟨r2, s2, w2, t2⟩
      rw [hy] at ih2
      obtain ⟨hr2, hs2, hw2, ht2⟩ := ih2
      simp only [resOf, stOf, wOf, traceOf] at hr2 hs2 hw2 ht2
      rw [hr2, hs2, hw2] at hy
      refine ⟨?_, ?_, ?_, ?_⟩ <;>
        simp [attachServers, mBind, hx, hy, resOf, stOf, wOf, traceOf, noOsSystem_append,
          ht, ht2]

set_option maxRecDepth 4096 in
/-- Claim C8: when `attach` runs with `simulate = true` and every targeted
server is running, it completes successfully (process exit status zero at
the CLI boundary) and its trace contains no `os.system` call — no attach
process is spawned; on the sample world with one detached session the
trace is exactly one `list-sessions` query followed by the report of the
attach command that would have run. -/
theorem claim_C8 :
    (∀ (w : World) (server_names : List String) (reverse all_at_once : Bool) (s : SessState),
      (∀ srv ∈ resolveServers w server_names, (getServer w srv).isSome = true) →
      resOf (attach server_names reverse true all_at_once s w) = Except.ok () ∧
      noOsSystem (traceOf (attach server_names reverse true all_at_once s w)) = true) ∧
    traceOf (attach (["srv"]) false true false initState sampleWorld) =
      [Call.tmux ("srv") (Cmd.listSessions sessionFormat (some detachedFilter)),
       Call.eprintCall ("attaching: tmux -L srv attach -t s1")] := by
  constructor
  · intro w server_names reverse all_at_once s h
    cases hrev : reverse with
    | false =>
        have h1 := attachServers_simulate all_at_once (resolveServers w server_names) s w h
        rcases hx : attachServers true all_at_once (resolveServers w server_names) s w with
          ⟨r, s1, w1, t1⟩
        rw [hx] at h1
        obtain ⟨hr, hs, hw, ht⟩ := h1
        simp only [resOf, stOf, wOf, traceOf] at hr hs hw ht
        rw [hr, hs, hw] at hx
        refine ⟨?_, ?_⟩
        · simp [attach, getW, mBind, mPure, recordCall, hx, resOf, traceOf]
        · simpa [attach, getW, mBind, mPure, recordCall, hx, traceOf, noOsSystem] using ht
    | true =>
        have hmem : ∀ srv ∈ (resolveServers w server_names).reverse,
            (getServer w srv).isSome = true := by
          intro srv hsrv
          exact h srv (List.mem_reverse.mp hsrv)
        have h1 := attachServers_simulate all_at_once
          (resolveServers w server_names).reverse s w hmem
        rcases hx : attachServers true all_at_once (resolveServers w server_names).reverse s w
          with ⟨r, s1, w1, t1⟩
        rw [hx] at h1
        obtain ⟨hr, hs, hw, ht⟩ := h1
        simp only [resOf, stOf, wOf, traceOf] at hr hs hw ht
        rw [hr, hs, hw] at hx
        refine ⟨?_, ?_⟩
        · simp [attach, getW, mBind, mPure, recordCall, hx, resOf, traceOf]
        · simpa [attach, getW, mBind, mPure, recordCall, hx, traceOf, noOsSystem] using ht
  · decide

theorem claim_C8_witness :
    resOf (attach (["srv"]) false true false initState sampleWorld) = Except.ok () ∧
    noOsSystem (traceOf (attach (["srv"]) false true false initState sampleWorld)) = true :=
  claim_C8.1 sampleWorld (["srv"]) false false initState (by decide)

end Tmuxtool
